import Mathlib

/-!
Shallow embedding of `pkg/series/storeapi/storeapi.go` (obslytics).

External effects (file reads, certificate parsing, gRPC dial, the Series
streaming call, stream receives, CloseSend / conn.Close results) are
supplied by explicit environment records, so every function of the source
becomes a pure Lean function of its inputs and its environment.  Go's
`error` values are modelled by `Option GoErr` (`none` = nil) and the
`github.com/pkg/errors` combinators are modelled faithfully, in particular
`errors.Wrap(nil, msg) = nil`.
-/

namespace Storeapi

/-- Model of a Go error value built via `github.com/pkg/errors`:
either a base error (`errors.New` or an error produced by a library call)
or a wrapping of a cause with a context message (`errors.Wrap`). -/
inductive GoErr where
  | base (msg : String)
  | wrap (cause : GoErr) (msg : String)
deriving DecidableEq, Repr

/-- `errors.Wrap` / `errors.Wrapf`: returns nil when the wrapped error is nil,
otherwise annotates the cause with a message, preserving the cause. -/
def errorsWrap (e : Option GoErr) (msg : String) : Option GoErr :=
  match e with
  | none => none
  | some c => some (.wrap c msg)

/-- The innermost (root) cause message of an error chain. -/
def GoErr.root : GoErr → String
  | .base m => m
  | .wrap c _ => c.root

/-- A loaded client certificate/key pair (`tls.Certificate`), abstract. -/
structure Certificate where
  id : Nat
deriving DecidableEq, Repr

/-- An `x509.CertPool`: either the system pool or a fresh pool populated
from a PEM bundle via `AppendCertsFromPEM`. -/
inductive CertPool where
  | system
  | fromPEM (pem : String)
deriving DecidableEq, Repr

/-- The fields of Go's `tls.Config` that `newCustomClientConfig` can touch.
`ServerName` keeps Go's zero value `""` unless assigned. -/
structure TLSConfig where
  RootCAs : CertPool
  InsecureSkipVerify : Bool
  Certificates : List Certificate := []
  ServerName : String := ""
deriving DecidableEq, Repr

/-- Environment supplying the results of the external calls made by
`newCustomClientConfig`: `ioutil.ReadFile`, `AppendCertsFromPEM` success,
`x509.SystemCertPool`, and `tls.LoadX509KeyPair`. -/
structure TLSEnv where
  readFile : String → Except GoErr String
  appendCertsOK : String → Bool
  systemCertPool : Except GoErr Unit
  loadX509KeyPair : String → String → Except GoErr Certificate

/-- The tail of `newCustomClientConfig` after the certificate pool has been
built: constructs the `tls.Config`, enforces the key/cert XOR check, and
loads the client pair when both are given (storeapi.go:54-71). -/
def newCustomClientConfigAfterPool (env : TLSEnv) (cert key : String)
    (insecureSkipVerify : Bool) (certPool : CertPool) :
    Option TLSConfig × Option GoErr :=
  let tlsCfg : TLSConfig :=
    { RootCAs := certPool, InsecureSkipVerify := insecureSkipVerify }
  if (key != "") != (cert != "") then
    (none, some (.base "both client key and certificate must be provided"))
  else if cert != "" then
    match env.loadX509KeyPair cert key with
    | .error e => (none, errorsWrap (some e) "client credentials")
    | .ok c => (some { tlsCfg with Certificates := [c] }, none)
  else
    (some tlsCfg, none)

/-- `newCustomClientConfig` (storeapi.go:32-72).  Returned as a pair
`(config, error)` because Go can return both nil: in the branch where the
CA file reads successfully but `AppendCertsFromPEM` fails, the code wraps
the `err` from `ReadFile` — which is nil at that point — so the result is
`(nil, nil)`. -/
def newCustomClientConfig (env : TLSEnv) (cert key caCert _serverName : String)
    (insecureSkipVerify : Bool) : Option TLSConfig × Option GoErr :=
  if caCert != "" then
    match env.readFile caCert with
    | .error e => (none, errorsWrap (some e) "reading client CA")
    | .ok caPEM =>
      if !(env.appendCertsOK caPEM) then
        (none, errorsWrap none "building client CA")
      else
        newCustomClientConfigAfterPool env cert key insecureSkipVerify (.fromPEM caPEM)
  else
    match env.systemCertPool with
    | .error e => (none, errorsWrap (some e) "reading system certificate pool")
    | .ok _ => newCustomClientConfigAfterPool env cert key insecureSkipVerify .system

/-- A gRPC dial option as assembled by `InsecureClient` (storeapi.go:81-113).
The transport-credentials option carries the (possibly nil) TLS config. -/
inductive DialOption where
  | maxCallRecvMsgSize (n : Int)
  | unaryInterceptor
  | streamInterceptor
  | transportCredentials (cfg : Option TLSConfig)
deriving DecidableEq, Repr

def maxInt32 : Int := 2147483647

/-- `InsecureClient` (storeapi.go:76-114): builds the base dial options,
obtains the TLS config (with `insecureSkipVerify = !secure`), fails when
the config construction reports an error, and otherwise appends transport
credentials built from the (possibly nil) config.  Metrics registration,
logging and tracing interceptor internals are effect-free for the claims
and are represented by the corresponding option constructors. -/
def InsecureClient (env : TLSEnv) (secure : Bool)
    (cert key caCert serverName : String) : Except GoErr (List DialOption) :=
  let dialOpts : List DialOption :=
    [.maxCallRecvMsgSize maxInt32, .unaryInterceptor, .streamInterceptor]
  match newCustomClientConfig env cert key caCert serverName (!secure) with
  | (_, some e) => .error e
  | (tlsCfg, none) => .ok (dialOpts ++ [.transportCredentials tlsCfg])

/-- A label as in `labelpb.ZLabel`. -/
structure ZLabel where
  Name : String
  Value : String
deriving DecidableEq, Repr

/-- A Prometheus label, the target of `labelpb.LabelsToPromLabels`. -/
structure PromLabel where
  Name : String
  Value : String
deriving DecidableEq, Repr

/-- `labelpb.LabelsToPromLabels`: the zero-copy conversion of ZLabels to
Prometheus labels (external library, value-preserving). -/
def LabelsToPromLabels (ls : List ZLabel) : List PromLabel :=
  ls.map fun l => { Name := l.Name, Value := l.Value }

/-- An encoded chunk (`storepb.AggrChunk`), opaque to the stream client. -/
structure AggrChunk where
  MinTime : Int
  MaxTime : Int
  raw : String
deriving DecidableEq, Repr

/-- `storepb.Series`: label set plus undecoded chunks. -/
structure StorepbSeries where
  Labels : List ZLabel
  Chunks : List AggrChunk
deriving DecidableEq, Repr

/-- The oneof payload of a `storepb.SeriesResponse`: either a series or a
warning frame. -/
inductive SeriesResponse where
  | series (s : StorepbSeries)
  | warning (w : String)
deriving DecidableEq, Repr

/-- `SeriesResponse.GetSeries`: the series payload, or nil (`none`) when the
message carries a warning instead. -/
def SeriesResponse.GetSeries : SeriesResponse → Option StorepbSeries
  | .series s => some s
  | .warning _ => none

/-- A Prometheus matcher as passed in `series.Params.Matchers`. -/
structure PromMatcher where
  Name : String
  Value : String
  matchType : Nat
deriving DecidableEq, Repr

/-- A wire matcher as produced by `storepb.TranslatePromMatchers`. -/
structure StorepbMatcher where
  Name : String
  Value : String
  matchType : Nat
deriving DecidableEq, Repr

/-- The `storepb.PartialResponseStrategy` enum. -/
inductive PRStrategy where
  | ABORT
  | WARN
deriving DecidableEq, Repr

/-- The fields of the `storepb.SeriesRequest` built by `Series.Read`. -/
structure SeriesRequest where
  MinTime : Int
  MaxTime : Int
  Matchers : List StorepbMatcher
  PRStrategyField : PRStrategy
deriving DecidableEq, Repr

/-- A Go `time.Time` instant: whole seconds and a nanosecond part in
`[0, 10^9)`. -/
structure GoTime where
  sec : Int
  nsec : Nat
deriving DecidableEq, Repr

/-- `timestamp.FromTime` (prometheus): milliseconds since epoch,
`t.Unix()*1000 + t.Nanosecond()/1e6`. -/
def timestampFromTime (t : GoTime) : Int :=
  t.sec * 1000 + (t.nsec / 1000000 : Nat)

/-- The end of the response stream as observed through `Recv` once all
buffered responses are consumed: clean `io.EOF` or a receive error. -/
inductive RecvTerminal where
  | eof
  | err (e : GoErr)
deriving DecidableEq, Repr

/-- The state of the `storepb.Store_SeriesClient` stream: the responses
still to be received, then the terminal outcome.  `Recv` yields the
pending responses in order and afterwards reports the terminal. -/
structure StreamState where
  pending : List SeriesResponse
  terminal : RecvTerminal
deriving DecidableEq, Repr

/-- A gRPC client connection, identified abstractly. -/
structure Conn where
  id : Nat
deriving DecidableEq, Repr

/-- The iterator of storeapi.go:171-180 (`input.Set` implementation):
stream client state, the current series pointer (`none` = Go nil), the
millisecond range, and the sticky error field. -/
structure iterator where
  stream : StreamState
  currentSeries : Option StorepbSeries := none
  mint : Int
  maxt : Int
  err : Option GoErr := none
deriving DecidableEq, Repr

/-- `iterator.Next` (storeapi.go:182-194): one `Recv`.  On `io.EOF`,
return false without touching `err`; on any other receive error, record it
in `err` and return false; on a response, store `GetSeries()` of it (nil
for a warning frame) as the current series and return true. -/
def iterator.Next (i : iterator) : iterator × Bool :=
  match i.stream.pending with
  | [] =>
    match i.stream.terminal with
    | .eof => (i, false)
    | .err e => ({ i with err := some e }, false)
  | resp :: rest =>
    ({ i with stream := { i.stream with pending := rest },
              currentSeries := resp.GetSeries }, true)

/-- `iterator.Err` (storeapi.go:208-210). -/
def iterator.Err (i : iterator) : Option GoErr := i.err

/-- A Go runtime panic relevant to `iterator.At`. -/
inductive GoPanic where
  | nilPointerDereference
deriving DecidableEq, Repr

/-- Aggregations requested by `At`. -/
inductive Aggr where
  | COUNT
  | SUM
deriving DecidableEq, Repr

/-- The value `newChunkSeries` (defined elsewhere in the repository, used
abstractly here) is constructed from: it packages exactly its arguments. -/
structure ChunkSeries where
  lset : List PromLabel
  chunks : List AggrChunk
  mint : Int
  maxt : Int
  aggrs : List Aggr
deriving DecidableEq, Repr

def newChunkSeries (lset : List PromLabel) (chunks : List AggrChunk)
    (mint maxt : Int) (aggrs : List Aggr) : ChunkSeries :=
  { lset := lset, chunks := chunks, mint := mint, maxt := maxt, aggrs := aggrs }

/-- `iterator.At` (storeapi.go:196-204): reads `i.currentSeries.Labels` and
`i.currentSeries.Chunks` — a field access through the pointer, which in Go
panics with a nil pointer dereference when `currentSeries` is nil — and
builds a chunk series over the iterator's range with COUNT and SUM. -/
def iterator.At (i : iterator) : Except GoPanic ChunkSeries :=
  match i.currentSeries with
  | none => .error .nilPointerDereference
  | some s =>
    .ok (newChunkSeries (LabelsToPromLabels s.Labels) s.Chunks
          i.mint i.maxt [.COUNT, .SUM])

/-- Environment for `iterator.Close`: the results the gRPC layer would
return from `CloseSend` and `conn.Close`. -/
structure CloseEnv where
  closeSendErr : Option GoErr
  connCloseErr : Option GoErr

/-- The observable release steps taken by `Close`. -/
inductive CloseEvent where
  | closeSend
  | connClose
deriving DecidableEq, Repr

/-- `iterator.Close` (storeapi.go:212-218): call `CloseSend`; if it fails,
return its error immediately — `conn.Close` is not reached; otherwise call
`conn.Close` and return its result.  The first component records which
release calls were made, in order. -/
def iterator.Close (env : CloseEnv) (_i : iterator) :
    List CloseEvent × Option GoErr :=
  match env.closeSendErr with
  | some e => ([.closeSend], some e)
  | none => ([.closeSend, .connClose], env.connCloseErr)

/-- The TLS-related fields of `series.Config` that `Series.Read` reads
(`i.conf.TLSConfig.*`; the defining package is outside the provided
source, its shape is taken from these accesses). -/
structure SeriesTLSConfig where
  InsecureSkipVerify : Bool
  CertFile : String
  KeyFile : String
  CAFile : String
  ServerName : String
deriving DecidableEq, Repr

/-- The fields of `series.Config` that `Series.Read` reads. -/
structure SeriesConfig where
  Endpoint : String
  TLSConfig : SeriesTLSConfig
deriving DecidableEq, Repr

/-- `Series` (storeapi.go:118-121); the logger carries no state relevant to
the claims. -/
structure Series where
  conf : SeriesConfig
deriving DecidableEq, Repr

/-- The fields of `series.Params` that `Series.Read` reads. -/
structure Params where
  MinTime : GoTime
  MaxTime : GoTime
  Matchers : List PromMatcher
deriving DecidableEq, Repr

/-- Environment for `Series.Read`: TLS environment plus the results of
`grpc.DialContext`, `storepb.TranslatePromMatchers` and the `Series`
streaming call. -/
structure ReadEnv where
  tls : TLSEnv
  dial : String → Except GoErr Conn
  translate : List PromMatcher → Except GoErr (List StorepbMatcher)
  seriesCall : Conn → SeriesRequest → Except GoErr StreamState

/-- Outcome of one `Series.Read` call, with the connection bookkeeping the
claims need: which connection (if any) was dialed during the call, whether
`Read` itself closed it, and the wire request sent (if the streaming call
was initiated). -/
structure ReadResult where
  result : Except GoErr iterator
  dialed : Option Conn
  connClosed : Bool
  sentRequest : Option SeriesRequest

/-- True when the read failed. -/
def ReadResult.failed (r : ReadResult) : Bool :=
  match r.result with
  | .error _ => true
  | .ok _ => false

/-- `Series.Read` (storeapi.go:127-168): build dial options via
`InsecureClient` (with `secure = !InsecureSkipVerify`), dial the endpoint,
translate the matchers, issue the `Series` call with millisecond-converted
bounds and ABORT partial-response strategy, and wrap the stream in an
iterator.  No failure path closes the dialed connection. -/
def Series.Read (self : Series) (env : ReadEnv) (params : Params) : ReadResult :=
  match InsecureClient env.tls (!self.conf.TLSConfig.InsecureSkipVerify)
      self.conf.TLSConfig.CertFile self.conf.TLSConfig.KeyFile
      self.conf.TLSConfig.CAFile self.conf.TLSConfig.ServerName with
  | .error e =>
    { result := .error (.wrap e "error initializing GRPC options"),
      dialed := none, connClosed := false, sentRequest := none }
  | .ok _dialOpts =>
    match env.dial self.conf.Endpoint with
    | .error e =>
      { result := .error (.wrap e "error initializing GRPC dial context"),
        dialed := none, connClosed := false, sentRequest := none }
    | .ok conn =>
      match env.translate params.Matchers with
      | .error e =>
        { result := .error e, dialed := some conn,
          connClosed := false, sentRequest := none }
      | .ok matchers =>
        match env.seriesCall conn
            { MinTime := timestampFromTime params.MinTime,
              MaxTime := timestampFromTime params.MaxTime,
              Matchers := matchers,
              PRStrategyField := .ABORT } with
        | .error e =>
          { result := .error (.wrap e ("storepb.Series against " ++ self.conf.Endpoint)),
            dialed := some conn, connClosed := false,
            sentRequest := some { MinTime := timestampFromTime params.MinTime,
                                  MaxTime := timestampFromTime params.MaxTime,
                                  Matchers := matchers,
                                  PRStrategyField := .ABORT } }
        | .ok stream =>
          { result := .ok { stream := stream,
                            mint := timestampFromTime params.MinTime,
                            maxt := timestampFromTime params.MaxTime },
            dialed := some conn, connClosed := false,
            sentRequest := some { MinTime := timestampFromTime params.MinTime,
                                  MaxTime := timestampFromTime params.MaxTime,
                                  Matchers := matchers,
                                  PRStrategyField := .ABORT } }

/-! ## Concrete fixtures used by counterexamples and witnesses -/

/-- A TLS environment in which every external call succeeds. -/
def tlsEnvOK : TLSEnv :=
  { readFile := fun _ => .ok "PEMDATA",
    appendCertsOK := fun _ => true,
    systemCertPool := .ok (),
    loadX509KeyPair := fun _ _ => .ok { id := 1 } }

/-- An iterator whose stream is already at clean end-of-stream. -/
def itEOF : iterator :=
  { stream := { pending := [], terminal := .eof }, mint := 0, maxt := 1000 }

/-- An iterator whose next receive fails. -/
def itRecvErr : iterator :=
  { stream := { pending := [], terminal := .err (.base "recv failed") },
    mint := 0, maxt := 1000 }

/-- An iterator with one pending series response. -/
def itOneSeries : iterator :=
  { stream :=
      { pending := [.series { Labels := [{ Name := "a", Value := "1" }],
                              Chunks := [] }],
        terminal := .eof },
    mint := 0, maxt := 1000 }

/-- An iterator whose next response is a warning frame. -/
def itWarn : iterator :=
  { stream := { pending := [.warning "partial data"], terminal := .eof },
    currentSeries := some { Labels := [], Chunks := [] },
    mint := 0, maxt := 1000 }

/-- A close environment where both release calls succeed. -/
def closeEnvOK : CloseEnv := { closeSendErr := none, connCloseErr := none }

/-- A close environment where `CloseSend` fails. -/
def closeEnvSendFails : CloseEnv :=
  { closeSendErr := some (.base "closesend failed"), connCloseErr := none }

/-! ## C1 -/

/-- C1 counterexample: on an iterator that reached clean end-of-stream,
when `CloseSend` returns an error, `Close` returns that error and never
invokes `conn.Close` — the connection is not released, refuting the claim
that `conn.Close` is invoked even when `CloseSend` fails. -/
theorem close_skips_conn_on_send_error :
    CloseEvent.connClose ∉ (iterator.Close closeEnvSendFails itEOF).1 ∧
    (iterator.Close closeEnvSendFails itEOF).2 = some (.base "closesend failed") := by
  decide

/-- C1 (amended): `Close` invokes `conn.Close` regardless of how iteration
ended — the iterator's state plays no role — provided `CloseSend`
succeeds; when `CloseSend` returns an error, `Close` returns it without
invoking `conn.Close`. -/
theorem close_releases_conn (env : CloseEnv) (i : iterator) :
    (env.closeSendErr = none →
      CloseEvent.connClose ∈ (iterator.Close env i).1 ∧
      (iterator.Close env i).2 = env.connCloseErr) ∧
    (∀ e, env.closeSendErr = some e →
      CloseEvent.connClose ∉ (iterator.Close env i).1 ∧
      (iterator.Close env i).2 = some e) := by
  unfold iterator.Close
  constructor
  · intro h
    rw [h]
    exact ⟨by simp, rfl⟩
  · intro e h
    rw [h]
    exact ⟨by simp, rfl⟩

/-- Witness for C1: at the concrete all-succeeding close environment and
the end-of-stream iterator, `conn.Close` is invoked and `Close` returns
nil. -/
theorem close_releases_conn_witness :
    CloseEvent.connClose ∈ (iterator.Close closeEnvOK itEOF).1 ∧
    (iterator.Close closeEnvOK itEOF).2 = closeEnvOK.connCloseErr :=
  (close_releases_conn closeEnvOK itEOF).1 rfl

/-! ## C2 -/

/-- C2: for an iterator with no recorded error, `Next` returns true exactly
when a response is still pending; on clean end-of-stream (`io.EOF`) it
returns false leaving `Err()` nil; on any other receive failure it returns
false with `Err()` reporting exactly that error. -/
theorem next_termination_spec (i : iterator) (h : i.Err = none) :
    ((i.Next).2 = true ↔ i.stream.pending ≠ []) ∧
    (i.stream.pending = [] → i.stream.terminal = .eof →
      (i.Next).2 = false ∧ (i.Next).1.Err = none) ∧
    (∀ e, i.stream.pending = [] → i.stream.terminal = .err e →
      (i.Next).2 = false ∧ (i.Next).1.Err = some e) := by
  unfold iterator.Next iterator.Err at *
  refine ⟨?_, ?_, ?_⟩
  · cases hp : i.stream.pending with
    | nil =>
      cases ht : i.stream.terminal with
      | eof => simp [hp, ht]
      | err e => simp [hp, ht]
    | cons r rest => simp [hp]
  · intro hp ht
    simp [hp, ht, h]
  · intro e hp ht
    simp [hp, ht]

/-- Witness for C2: on the concrete end-of-stream iterator, `Next` is false
and `Err()` is nil; on the concrete erroring iterator, `Next` is false and
`Err()` is the receive error; on the one-series iterator, `Next` is true. -/
theorem next_termination_spec_witness :
    ((itEOF.Next).2 = false ∧ (itEOF.Next).1.Err = none) ∧
    ((itRecvErr.Next).2 = false ∧
      (itRecvErr.Next).1.Err = some (.base "recv failed")) ∧
    (itOneSeries.Next).2 = true :=
  ⟨(next_termination_spec itEOF rfl).2.1 rfl rfl,
   (next_termination_spec itRecvErr rfl).2.2 (.base "recv failed") rfl rfl,
   ((next_termination_spec itOneSeries rfl).1).2 (by decide)⟩

/-! ## C5 -/

/-- C5: whenever `Close` performs the transport close (`conn.Close`), the
sequence of release calls is exactly `CloseSend` followed by `conn.Close`
— the outbound half-close strictly precedes closing the transport. -/
theorem close_send_before_conn_close (env : CloseEnv) (i : iterator)
    (h : CloseEvent.connClose ∈ (iterator.Close env i).1) :
    (iterator.Close env i).1 = [CloseEvent.closeSend, CloseEvent.connClose] := by
  unfold iterator.Close at *
  cases henv : env.closeSendErr with
  | none => rfl
  | some e =>
    rw [henv] at h
    simp at h

/-- Witness for C5: at the all-succeeding close environment both calls
occur, in the half-close-first order. -/
theorem close_send_before_conn_close_witness :
    (iterator.Close closeEnvOK itEOF).1 =
      [CloseEvent.closeSend, CloseEvent.connClose] :=
  close_send_before_conn_close closeEnvOK itEOF (by decide)

/-! ## C3 and C4 fixtures -/

/-- A configuration with no TLS material and skip-verify on. -/
def confPlain : SeriesConfig :=
  { Endpoint := "store.example:10901",
    TLSConfig := { InsecureSkipVerify := true, CertFile := "", KeyFile := "",
                   CAFile := "", ServerName := "" } }

/-- Query parameters: range [1s, 5s] with one matcher. -/
def paramsBasic : Params :=
  { MinTime := { sec := 1, nsec := 500000000 },
    MaxTime := { sec := 5, nsec := 0 },
    Matchers := [{ Name := "job", Value := "node", matchType := 0 }] }

/-- A read environment where dialing succeeds but matcher translation
fails. -/
def readEnvBadMatcher : ReadEnv :=
  { tls := tlsEnvOK,
    dial := fun _ => .ok { id := 7 },
    translate := fun _ => .error (.base "bad matcher regex"),
    seriesCall := fun _ _ => .error (.base "unreached") }

/-- A read environment where every step succeeds and the stream holds one
series then ends cleanly. -/
def readEnvOK : ReadEnv :=
  { tls := tlsEnvOK,
    dial := fun _ => .ok { id := 7 },
    translate := fun ms =>
      .ok (ms.map fun m => { Name := m.Name, Value := m.Value,
                             matchType := m.matchType }),
    seriesCall := fun _ _ =>
      .ok { pending := [.series { Labels := [], Chunks := [] }],
            terminal := .eof } }

/-- A read environment where dialing itself fails. -/
def readEnvDialFails : ReadEnv :=
  { tls := tlsEnvOK,
    dial := fun _ => .error (.base "connection refused"),
    translate := fun _ => .error (.base "unreached"),
    seriesCall := fun _ _ => .error (.base "unreached") }

/-! ## C3 -/

/-- C3 counterexample: with a successful dial followed by a matcher
translation failure, `Read` fails (nil cursor, non-nil error) yet the
connection dialed during the call is never closed — it remains open,
refuting the claimed error atomicity. -/
theorem read_leaks_conn_on_translate_error :
    (Series.Read { conf := confPlain } readEnvBadMatcher paramsBasic).failed = true ∧
    (Series.Read { conf := confPlain } readEnvBadMatcher paramsBasic).dialed =
      some { id := 7 } ∧
    (Series.Read { conf := confPlain } readEnvBadMatcher paramsBasic).connClosed
      = false := by
  decide

/-- C3 (amended): every failure of `Series.Read` yields a nil cursor and a
non-nil error that preserves the original cause (either returned verbatim
or wrapped around it); however `Read` never closes a connection it
dialed, so a failure occurring after the dial (matcher translation or
stream initiation) leaves the dialed connection open. -/
theorem read_failure_spec (self : Series) (env : ReadEnv) (params : Params) :
    (Series.Read self env params).connClosed = false ∧
    (∀ e, InsecureClient env.tls (!self.conf.TLSConfig.InsecureSkipVerify)
        self.conf.TLSConfig.CertFile self.conf.TLSConfig.KeyFile
        self.conf.TLSConfig.CAFile self.conf.TLSConfig.ServerName = .error e →
      (Series.Read self env params).result =
        .error (.wrap e "error initializing GRPC options") ∧
      (Series.Read self env params).dialed = none) ∧
    (∀ opts e, InsecureClient env.tls (!self.conf.TLSConfig.InsecureSkipVerify)
        self.conf.TLSConfig.CertFile self.conf.TLSConfig.KeyFile
        self.conf.TLSConfig.CAFile self.conf.TLSConfig.ServerName = .ok opts →
      env.dial self.conf.Endpoint = .error e →
      (Series.Read self env params).result =
        .error (.wrap e "error initializing GRPC dial context") ∧
      (Series.Read self env params).dialed = none) ∧
    (∀ opts c e, InsecureClient env.tls (!self.conf.TLSConfig.InsecureSkipVerify)
        self.conf.TLSConfig.CertFile self.conf.TLSConfig.KeyFile
        self.conf.TLSConfig.CAFile self.conf.TLSConfig.ServerName = .ok opts →
      env.dial self.conf.Endpoint = .ok c →
      env.translate params.Matchers = .error e →
      (Series.Read self env params).result = .error e ∧
      (Series.Read self env params).dialed = some c) ∧
    (∀ opts c ms e, InsecureClient env.tls (!self.conf.TLSConfig.InsecureSkipVerify)
        self.conf.TLSConfig.CertFile self.conf.TLSConfig.KeyFile
        self.conf.TLSConfig.CAFile self.conf.TLSConfig.ServerName = .ok opts →
      env.dial self.conf.Endpoint = .ok c →
      env.translate params.Matchers = .ok ms →
      env.seriesCall c
        { MinTime := timestampFromTime params.MinTime,
          MaxTime := timestampFromTime params.MaxTime,
          Matchers := ms, PRStrategyField := .ABORT } = .error e →
      (Series.Read self env params).result =
        .error (.wrap e ("storepb.Series against " ++ self.conf.Endpoint)) ∧
      (Series.Read self env params).dialed = some c) := by
  refine ⟨?_, ?_, ?_, ?_, ?_⟩
  · unfold Series.Read
    split
    · rfl
    · split
      · rfl
      · split
        · rfl
        · split
          · rfl
          · rfl
  · intro e hic
    unfold Series.Read
    simp only [hic]
    simp
  · intro opts e hic hd
    unfold Series.Read
    simp only [hic, hd]
    simp
  · intro opts c e hic hd htr
    unfold Series.Read
    simp only [hic, hd, htr]
    simp
  · intro opts c ms e hic hd htr hsc
    unfold Series.Read
    simp only [hic, hd, htr, hsc]
    simp

/-- Witness for C3 (amended): at the concrete failing-dial environment,
`Read` returns the dial error wrapped with its context message and no
connection was established. -/
theorem read_failure_spec_witness :
    (Series.Read { conf := confPlain } readEnvDialFails paramsBasic).result =
      .error (.wrap (.base "connection refused")
        "error initializing GRPC dial context") ∧
    (Series.Read { conf := confPlain } readEnvDialFails paramsBasic).dialed
      = none :=
  (read_failure_spec { conf := confPlain } readEnvDialFails paramsBasic).2.2.1
    [.maxCallRecvMsgSize maxInt32, .unaryInterceptor, .streamInterceptor,
     .transportCredentials (some { RootCAs := .system,
                                   InsecureSkipVerify := true })]
    (.base "connection refused") rfl rfl

/-! ## C4 -/

/-- C4: when `Series.Read` succeeds, the wire request it sent is exactly
the translation of its inputs: millisecond conversions of `MinTime` and
`MaxTime`, the storepb translation of the matchers, and the
partial-response strategy fixed to ABORT. -/
theorem read_request_translation (self : Series) (env : ReadEnv)
    (params : Params) (it : iterator) (ms : List StorepbMatcher)
    (hok : (Series.Read self env params).result = .ok it)
    (htr : env.translate params.Matchers = .ok ms) :
    (Series.Read self env params).sentRequest =
      some { MinTime := timestampFromTime params.MinTime,
             MaxTime := timestampFromTime params.MaxTime,
             Matchers := ms,
             PRStrategyField := .ABORT } := by
  unfold Series.Read at hok ⊢
  cases hic : InsecureClient env.tls (!self.conf.TLSConfig.InsecureSkipVerify)
      self.conf.TLSConfig.CertFile self.conf.TLSConfig.KeyFile
      self.conf.TLSConfig.CAFile self.conf.TLSConfig.ServerName with
  | error e => simp only [hic] at hok; exact Except.noConfusion hok
  | ok opts =>
    simp only [hic] at hok ⊢
    cases hd : env.dial self.conf.Endpoint with
    | error e => simp only [hd] at hok; exact Except.noConfusion hok
    | ok c =>
      simp only [hd, htr] at hok ⊢
      cases hsc : env.seriesCall c
          { MinTime := timestampFromTime params.MinTime,
            MaxTime := timestampFromTime params.MaxTime,
            Matchers := ms, PRStrategyField := .ABORT } with
      | error e =>
        simp only [hsc] at hok
        exact Except.noConfusion hok
      | ok st =>
        simp only [hsc]

/-- Witness for C4: at the concrete all-succeeding read environment, the
request sent is the millisecond range [1500, 5000], the translated
matcher, and ABORT. -/
theorem read_request_translation_witness :
    (Series.Read { conf := confPlain } readEnvOK paramsBasic).sentRequest =
      some { MinTime := 1500, MaxTime := 5000,
             Matchers := [{ Name := "job", Value := "node", matchType := 0 }],
             PRStrategyField := .ABORT } := by
  have h := read_request_translation { conf := confPlain } readEnvOK paramsBasic
    { stream := { pending := [.series { Labels := [], Chunks := [] }],
                  terminal := .eof },
      mint := 1500, maxt := 5000 }
    [{ Name := "job", Value := "node", matchType := 0 }]
    rfl rfl
  rw [h]
  decide

/-! ## Shared helper lemmas about `newCustomClientConfig` -/

/-- Helper: everything true of a config produced by the post-pool tail of
`newCustomClientConfig`. -/
theorem afterPool_fst_some (env : TLSEnv) (cert key : String) (isv : Bool)
    (pool : CertPool) (cfg : TLSConfig)
    (h : (newCustomClientConfigAfterPool env cert key isv pool).1 = some cfg) :
    ((key != "") != (cert != "")) = false ∧
    cfg.InsecureSkipVerify = isv ∧
    cfg.ServerName = "" ∧
    cfg.RootCAs = pool ∧
    (cert = "" → cfg.Certificates = []) ∧
    (∀ c, cert ≠ "" → env.loadX509KeyPair cert key = .ok c →
      cfg.Certificates = [c]) := by
  unfold newCustomClientConfigAfterPool at h
  by_cases hx : ((key != "") != (cert != "")) = true
  · simp only [hx, if_true] at h
    exact Option.noConfusion h
  · have hx2 : ((key != "") != (cert != "")) = false := by
      revert hx
      cases ((key != "") != (cert != "")) <;> simp
    simp only [hx2, Bool.false_eq_true, if_false] at h
    refine ⟨hx2, ?_⟩
    by_cases hc : (cert != "") = true
    · simp only [hc, if_true] at h
      cases hl : env.loadX509KeyPair cert key with
      | error e => rw [hl] at h; simp at h
      | ok c =>
        rw [hl] at h
        simp only [Option.some.injEq] at h
        subst h
        refine ⟨rfl, rfl, rfl, ?_, ?_⟩
        · intro hce
          rw [hce] at hc
          simp at hc
        · intro c2 _ hl2
          injection hl2 with he
          subst he
          rfl
    · simp only [hc, Bool.false_eq_true, if_false] at h
      simp only [Option.some.injEq] at h
      subst h
      refine ⟨rfl, rfl, rfl, fun _ => rfl, ?_⟩
      intro c hcne _
      exact absurd (by simpa using hcne) hc

/-- Helper: a config returned by `newCustomClientConfig` comes from the
post-pool tail, with the pool determined by the CA-file branch. -/
theorem config_fst_some_elim (env : TLSEnv)
    (cert key caCert serverName : String) (isv : Bool) (cfg : TLSConfig)
    (h : (newCustomClientConfig env cert key caCert serverName isv).1 = some cfg) :
    ∃ pool, (newCustomClientConfigAfterPool env cert key isv pool).1 = some cfg ∧
      (caCert = "" → pool = .system) ∧
      (∀ pem, caCert ≠ "" → env.readFile caCert = .ok pem →
        pool = .fromPEM pem) := by
  unfold newCustomClientConfig at h
  by_cases hca : (caCert != "") = true
  · simp only [hca, if_true] at h
    cases hr : env.readFile caCert with
    | error e => rw [hr] at h; simp [errorsWrap] at h
    | ok pem =>
      rw [hr] at h
      by_cases hap : env.appendCertsOK pem = true
      · simp only [hap] at h
        refine ⟨.fromPEM pem, h, ?_, ?_⟩
        · intro hce
          rw [hce] at hca
          simp at hca
        · intro pem2 _ hr2
          injection hr2 with he
          rw [he]
      · simp only [hap] at h
        simp [errorsWrap] at h
  · simp only [hca, Bool.false_eq_true, if_false] at h
    cases hs : env.systemCertPool with
    | error e => rw [hs] at h; simp [errorsWrap] at h
    | ok u =>
      rw [hs] at h
      refine ⟨.system, h, fun _ => rfl, ?_⟩
      intro pem hcne _
      exact absurd (by simpa using hcne) hca

/-! ## C6 -/

/-- C6 counterexample: with the system pool available and no other TLS
material, passing the non-empty server name "example.com" yields a config
whose `ServerName` is the empty string — the parameter is accepted but
never applied to the TLS configuration. -/
theorem server_name_not_applied :
    (newCustomClientConfig tlsEnvOK "" "" "" "example.com" false).2 = none ∧
    Option.map TLSConfig.ServerName
      (newCustomClientConfig tlsEnvOK "" "" "" "example.com" false).1 =
        some "" ∧
    Option.map TLSConfig.ServerName
      (newCustomClientConfig tlsEnvOK "" "" "" "example.com" false).1 ≠
        some "example.com" := by
  decide

/-- C6 (amended): every config produced by `newCustomClientConfig` honors
the insecure-skip-verify flag, uses the system pool when no CA file is
given and the pool built from the CA bundle otherwise, carries the loaded
client pair exactly when a certificate file is given — but its
`ServerName` is always the empty string: the serverName parameter is
ignored, never applied. -/
theorem tls_config_spec (env : TLSEnv) (cert key caCert serverName : String)
    (isv : Bool) (cfg : TLSConfig)
    (h : (newCustomClientConfig env cert key caCert serverName isv).1 = some cfg) :
    cfg.InsecureSkipVerify = isv ∧
    cfg.ServerName = "" ∧
    (caCert = "" → cfg.RootCAs = .system) ∧
    (∀ pem, caCert ≠ "" → env.readFile caCert = .ok pem →
      cfg.RootCAs = .fromPEM pem) ∧
    (cert = "" → cfg.Certificates = []) ∧
    (∀ c, cert ≠ "" → env.loadX509KeyPair cert key = .ok c →
      cfg.Certificates = [c]) := by
  obtain ⟨pool, hp, hsys, hpem⟩ :=
    config_fst_some_elim env cert key caCert serverName isv cfg h
  obtain ⟨_, hisv, hsn, hroot, hempty, hload⟩ :=
    afterPool_fst_some env cert key isv pool cfg hp
  refine ⟨hisv, hsn, ?_, ?_, hempty, hload⟩
  · intro hce
    rw [hroot, hsys hce]
  · intro pem hcne hr
    rw [hroot, hpem pem hcne hr]

/-- Witness for C6 (amended): at the all-succeeding environment with a CA
file, both key and cert files, skip-verify off and a server name, the
config carries the PEM pool and the loaded pair, but an empty server
name. -/
theorem tls_config_spec_witness :
    (newCustomClientConfig tlsEnvOK "c.pem" "k.pem" "ca.pem" "srv" false).1 =
      some { RootCAs := .fromPEM "PEMDATA", InsecureSkipVerify := false,
             Certificates := [{ id := 1 }], ServerName := "" } ∧
    ({ RootCAs := .fromPEM "PEMDATA", InsecureSkipVerify := false,
       Certificates := [{ id := 1 }], ServerName := "" } : TLSConfig).ServerName
      = "" := by
  refine ⟨by decide, ?_⟩
  exact (tls_config_spec tlsEnvOK "c.pem" "k.pem" "ca.pem" "srv" false
    { RootCAs := .fromPEM "PEMDATA", InsecureSkipVerify := false,
      Certificates := [{ id := 1 }], ServerName := "" } (by decide)).2.1

/-! ## C8 -/

/-- C8: when a CA file is given, reads successfully, but contains no
parsable PEM certificate (`AppendCertsFromPEM` returns false), the failure
branch wraps the nil error from `ReadFile`, so `newCustomClientConfig`
returns a nil config together with a nil error. -/
theorem bad_ca_pem_nil_nil (env : TLSEnv) (cert key caCert serverName : String)
    (isv : Bool) (pem : String) (hca : caCert ≠ "")
    (hread : env.readFile caCert = .ok pem)
    (happ : env.appendCertsOK pem = false) :
    newCustomClientConfig env cert key caCert serverName isv = (none, none) := by
  unfold newCustomClientConfig
  have hca2 : (caCert != "") = true := by simpa using hca
  simp only [hca2, if_true, hread, happ]
  rfl

/-- A TLS environment whose CA file reads fine but never parses as PEM. -/
def tlsEnvBadPEM : TLSEnv :=
  { readFile := fun _ => .ok "NOT A CERT",
    appendCertsOK := fun _ => false,
    systemCertPool := .ok (),
    loadX509KeyPair := fun _ _ => .ok { id := 1 } }

/-- Witness for C8: at the concrete bad-PEM environment the function
returns the nil/nil pair. -/
theorem bad_ca_pem_nil_nil_witness :
    newCustomClientConfig tlsEnvBadPEM "" "" "ca.pem" "" false = (none, none) :=
  bad_ca_pem_nil_nil tlsEnvBadPEM "" "" "ca.pem" "" false "NOT A CERT"
    (by decide) rfl rfl

/-! ## C9 -/

/-- C9 counterexample: with a client certificate path but no key path —
exactly one of the two non-empty — and a CA file whose contents do not
parse, `newCustomClientConfig` returns a nil config with a nil error: the
key/cert validation never runs and no error about the pair is reported,
refuting the claim that every such input yields that non-nil error. -/
theorem one_sided_cert_pre_empted :
    newCustomClientConfig tlsEnvBadPEM "client.pem" "" "ca.pem" "" false =
      (none, none) := by
  decide

/-- C9 (amended): when exactly one of the client key path and certificate
path is non-empty AND the CA-pool step succeeds (no CA file, with the
system pool available, or a CA file that reads and parses), the function
returns a nil config with the error stating that both client key and
certificate must be provided; and, on all inputs, client authentication is
configured only when both are non-empty: a returned config carries
certificates only if both paths are non-empty. -/
theorem key_cert_xor_spec (env : TLSEnv) (cert key caCert serverName : String)
    (isv : Bool) :
    (((key != "") != (cert != "")) = true →
      ((caCert = "" ∧ env.systemCertPool = .ok ()) ∨
       (∃ pem, caCert ≠ "" ∧ env.readFile caCert = .ok pem ∧
          env.appendCertsOK pem = true)) →
      newCustomClientConfig env cert key caCert serverName isv =
        (none, some (.base "both client key and certificate must be provided"))) ∧
    (∀ cfg, (newCustomClientConfig env cert key caCert serverName isv).1 =
        some cfg →
      cfg.Certificates ≠ [] → (cert ≠ "" ∧ key ≠ "")) := by
  constructor
  · intro hx hca
    have hafter : newCustomClientConfigAfterPool env cert key isv =
        fun _ => (none,
          some (.base "both client key and certificate must be provided")) := by
      funext pool
      unfold newCustomClientConfigAfterPool
      simp only [hx, if_true]
    unfold newCustomClientConfig
    rcases hca with ⟨hce, hsys⟩ | ⟨pem, hcne, hread, happ⟩
    · have : (caCert != "") = false := by simp [hce]
      simp only [this, Bool.false_eq_true, if_false, hsys, hafter]
    · have hca2 : (caCert != "") = true := by simpa using hcne
      simp only [hca2, if_true, hread, happ, hafter]
      rfl
  · intro cfg h hne
    obtain ⟨pool, hp, _, _⟩ :=
      config_fst_some_elim env cert key caCert serverName isv cfg h
    obtain ⟨hx, _, _, _, hempty, _⟩ :=
      afterPool_fst_some env cert key isv pool cfg hp
    have hcert : cert ≠ "" := by
      intro hce
      exact hne (hempty hce)
    refine ⟨hcert, ?_⟩
    have hc2 : (cert != "") = true := by simpa using hcert
    rw [hc2] at hx
    have hk : (key != "") = true := by
      revert hx
      cases (key != "") <;> simp
    simpa using hk

/-- Witness for C9 (amended): with both paths one-sided (cert only), no CA
file and the system pool available, the function reports the
both-must-be-provided error with a nil config. -/
theorem key_cert_xor_spec_witness :
    newCustomClientConfig tlsEnvOK "client.pem" "" "" "" false =
      (none, some (.base "both client key and certificate must be provided")) :=
  (key_cert_xor_spec tlsEnvOK "client.pem" "" "" "" false).1 (by decide)
    (Or.inl ⟨rfl, rfl⟩)

/-! ## C10 -/

/-- C10 counterexample: on an iterator whose next response is a warning
frame, `Next` returns true and sets the current series to nil — but the
subsequent `At` call does not construct a chunk series: evaluating
`i.currentSeries.Labels` dereferences the nil pointer and panics. -/
theorem warning_frame_at_nil_deref :
    (itWarn.Next).2 = true ∧
    (itWarn.Next).1.currentSeries = none ∧
    (itWarn.Next).1.At = .error .nilPointerDereference :=
  ⟨rfl, rfl, rfl⟩

/-- C10 (amended): whenever the next pending response is a warning frame,
`Next` still returns true, the current series becomes nil, and the
subsequent `At` dereferences the nil series and panics (nil pointer
dereference) rather than constructing a chunk series, skipping, or
rejecting the message. -/
theorem warning_frame_spec (i : iterator) (w : String)
    (rest : List SeriesResponse)
    (h : i.stream.pending = .warning w :: rest) :
    (i.Next).2 = true ∧
    (i.Next).1.currentSeries = none ∧
    (i.Next).1.At = .error .nilPointerDereference := by
  unfold iterator.Next
  rw [h]
  refine ⟨rfl, rfl, rfl⟩

/-- An iterator whose second pending response is a warning frame, used to
witness the amended C10 away from the counterexample's iterator. -/
def itWarnLater : iterator :=
  { stream := { pending := [.warning "no store matched",
                            .series { Labels := [], Chunks := [] }],
                terminal := .eof },
    mint := 0, maxt := 500 }

/-- Witness for C10 (amended): at a concrete iterator whose head response
is a warning, `Next` is true, the current series is nil, and `At`
panics. -/
theorem warning_frame_spec_witness :
    (itWarnLater.Next).2 = true ∧
    (itWarnLater.Next).1.currentSeries = none ∧
    (itWarnLater.Next).1.At = .error .nilPointerDereference :=
  warning_frame_spec itWarnLater "no store matched"
    [.series { Labels := [], Chunks := [] }] rfl

end Storeapi
